import Mathlib

/-!
Shallow embedding of the loan calculation engine of src/loan_app.py.

Python floating-point values are modelled as exact rationals.  The Streamlit
session language that get_translation reads from ambient session state is
passed as an explicit argument, which turns the two stateful functions
calculate_loan and create_amortization_table into pure functions of their
arguments plus the ambient language.
-/

/-- The two display languages offered by the UI language selector
(lines 180-181 of src/loan_app.py). -/
inductive Lang where
  | francais
  | english
deriving DecidableEq

/-- Embeds get_translation (src/loan_app.py, lines 162-165) together with the
entries of the translations dictionary (lines 133-160) that the computation
engine looks up.  The source dictionary also holds UI-only labels that the
modelled functions never request.  A key absent from the dictionary raises a
KeyError in the source; the model returns "" there, which is unreachable from
the modelled callers. -/
def get_translation (lang : Lang) (text_key : String) : String :=
  match text_key with
  | "Mois" =>
      (match lang with | Lang.francais => "Mois" | Lang.english => "Month")
  | "Capital Restant Du en Début de Période" =>
      (match lang with
       | Lang.francais => "Capital Restant Du en Début de Période"
       | Lang.english => "Remaining Principal at Start of Period")
  | "Capital Amorti" =>
      (match lang with | Lang.francais => "Capital Amorti" | Lang.english => "Principal Paid")
  | "Intérêts" =>
      (match lang with | Lang.francais => "Intérêts" | Lang.english => "Interest")
  | "Assurance" =>
      (match lang with | Lang.francais => "Assurance" | Lang.english => "Insurance")
  | "Total Echeance" =>
      (match lang with | Lang.francais => "Total Echeance" | Lang.english => "Total Due")
  | "Total" =>
      (match lang with | Lang.francais => "Total" | Lang.english => "Total")
  | "Les valeurs doivent être positives." =>
      (match lang with
       | Lang.francais => "Les valeurs doivent être positives."
       | Lang.english => "Values must be positive.")
  | _ => ""

/-- A cell of the returned pandas DataFrame: the month column of data rows
holds raw integers, every other cell holds a string. -/
inductive Cell where
  | nat (n : ℕ)
  | str (s : String)
deriving DecidableEq

/-- One numeric amortization data row, fields in the order appended on line 58
of src/loan_app.py: [month, capital_beginning, principal_payment,
interest_payment, insurance_amount, total_payment]. -/
structure AmortRow where
  month : ℕ
  capital_beginning : ℚ
  principal_payment : ℚ
  interest_payment : ℚ
  insurance_amount : ℚ
  total_payment : ℚ
deriving DecidableEq

/-- The clamp of lines 55-56: a negative running balance is reset to zero. -/
def clampNN (x : ℚ) : ℚ := if x < 0 then 0 else x

/-- The loop body iteration of create_amortization_table (lines 50-58):
starting at month number m with running balance bal, produce the next fuel
rows.  Each row records the balance before the payment, the interest and
principal portions, the constant insurance column and the constant total due;
the running balance is then clamped to a floor of zero. -/
def buildRows (monthly_rate monthly_payment insurance_amount : ℚ) :
    ℕ → ℚ → ℕ → List AmortRow
  | _, _, 0 => []
  | m, bal, fuel + 1 =>
      ⟨m, bal, monthly_payment - bal * monthly_rate, bal * monthly_rate,
        insurance_amount, monthly_payment + insurance_amount⟩ ::
        buildRows monthly_rate monthly_payment insurance_amount (m + 1)
          (clampNN (bal - (monthly_payment - bal * monthly_rate))) fuel

/-- The running remaining_balance of the loop of lines 49-56 after a given
number of iterations, starting from bal. -/
def balanceAfter (monthly_rate monthly_payment : ℚ) : ℚ → ℕ → ℚ
  | bal, 0 => bal
  | bal, fuel + 1 =>
      balanceAfter monthly_rate monthly_payment
        (clampNN (bal - (monthly_payment - bal * monthly_rate))) fuel

/-- Little-endian base-10 digit extraction with explicit fuel, so that the
definition is structurally recursive and kernel-reducible. -/
def digitsAux : ℕ → ℕ → List ℕ
  | 0, _ => []
  | _ + 1, 0 => []
  | fuel + 1, m + 1 => ((m + 1) % 10) :: digitsAux fuel ((m + 1) / 10)

/-- Little-endian base-10 digits of a natural number ([] for 0). -/
def decDigits (m : ℕ) : List ℕ := digitsAux m m

/-- Split a list into groups of three from the front, the last group holding
one to three elements. -/
def chunk3 {α : Type} : List α → List (List α)
  | a :: b :: c :: d :: rest => [a, b, c] :: chunk3 (d :: rest)
  | l => [l]

/-- Render a natural number with comma thousands separators, as the integer
part of the Python format specifier ",.2f" does. -/
def commaGroup (m : ℕ) : String :=
  if m = 0 then "0"
  else
    String.intercalate ","
      (((chunk3 (decDigits m)).reverse).map
        (fun c => String.mk ((c.reverse).map Nat.digitChar)))

/-- Render a number below 100 as exactly two decimal digits. -/
def twoDigits (m : ℕ) : String :=
  String.mk [Nat.digitChar (m / 10 % 10), Nat.digitChar (m % 10)]

/-- Models the Python string formatting f-string "{:,.2f}" used on lines
69-83 of src/loan_app.py, in exact rational arithmetic: round the value to
two decimal places (ties to even, as Python float formatting rounds), group
the integer part in threes with commas, and always print two decimals.  A
negative value keeps its sign even when it rounds to zero. -/
def formatCommas2 (x : ℚ) : String :=
  let y : ℚ := |x| * 100
  let fl : ℕ := (y.num / (y.den : ℤ)).toNat
  let frac : ℚ := y - (fl : ℚ)
  let cents : ℕ :=
    if frac < 1 / 2 then fl
    else if 1 / 2 < frac then fl + 1
    else if fl % 2 = 0 then fl else fl + 1
  (if x < 0 then "-" else "") ++ commaGroup (cents / 100) ++ "." ++ twoDigits (cents % 100)

/-- A pandas DataFrame as returned by create_amortization_table: a list of
column labels and a list of rows of cells. -/
structure DataFrame where
  columns : List String
  rows : List (List Cell)
deriving DecidableEq

/-- The numeric data rows accumulated on lines 48-58 of src/loan_app.py:
months run from 1, the running balance starts at principal, and the loop runs
once per month of the duration (range(1, duration_months + 1) is empty when
the duration is not positive, matching Int.toNat). -/
def amortData (principal monthly_rate monthly_payment : ℚ) (duration_months : ℤ)
    (insurance_amount : ℚ) : List AmortRow :=
  buildRows monthly_rate monthly_payment insurance_amount 1 principal duration_months.toNat

/-- Embeds create_amortization_table (src/loan_app.py, lines 46-86): build the
numeric rows, sum the four payment columns while still numeric, format every
non-month cell as a "{:,.2f}" string, and append the totals row whose month
cell holds the translated label "Total" and whose opening-balance cell is the
empty string. -/
def create_amortization_table (lang : Lang) (principal monthly_rate monthly_payment : ℚ)
    (duration_months : ℤ) (insurance_amount : ℚ) : DataFrame :=
  let data := amortData principal monthly_rate monthly_payment duration_months insurance_amount
  let total_capital_amorti := (data.map AmortRow.principal_payment).sum
  let total_interest_paid := (data.map AmortRow.interest_payment).sum
  let total_insurance := (data.map AmortRow.insurance_amount).sum
  let total_echeance := (data.map AmortRow.total_payment).sum
  let fmtRow : AmortRow → List Cell := fun row =>
    [Cell.nat row.month, Cell.str (formatCommas2 row.capital_beginning),
     Cell.str (formatCommas2 row.principal_payment),
     Cell.str (formatCommas2 row.interest_payment),
     Cell.str (formatCommas2 row.insurance_amount),
     Cell.str (formatCommas2 row.total_payment)]
  let total_row : List Cell :=
    [Cell.str (get_translation lang "Total"), Cell.str "",
     Cell.str (formatCommas2 total_capital_amorti),
     Cell.str (formatCommas2 total_interest_paid),
     Cell.str (formatCommas2 total_insurance),
     Cell.str (formatCommas2 total_echeance)]
  { columns := [get_translation lang "Mois",
      get_translation lang "Capital Restant Du en Début de Période",
      get_translation lang "Capital Amorti",
      get_translation lang "Intérêts",
      get_translation lang "Assurance",
      get_translation lang "Total Echeance"],
    rows := data.map fmtRow ++ [total_row] }

/-- The dictionary returned by calculate_loan on success (lines 37-44). -/
structure LoanData where
  monthly_payment : ℚ
  total_cost : ℚ
  total_paid : ℚ
  cost_percentage : ℚ
  insurance_total_cost : ℚ
  amortization_table : DataFrame
deriving DecidableEq

/-- Embeds calculate_loan (src/loan_app.py, lines 4-44).  The ValueError
raised on line 23 becomes the error branch of Except; the success branch
computes the monthly rate, the annuity payment without insurance, the summary
figures and the amortization table exactly as lines 25-44 do. -/
def calculate_loan (lang : Lang) (principal taeg : ℚ) (duration_months : ℤ)
    (insurance_amount : ℚ) : Except String LoanData :=
  if principal ≤ 0 ∨ taeg ≤ 0 ∨ duration_months ≤ 0 then
    Except.error (get_translation lang "Les valeurs doivent être positives.")
  else
    let monthly_rate := taeg / 100 / 12
    let monthly_payment_without_insurance :=
      principal * (monthly_rate * (1 + monthly_rate) ^ duration_months.toNat) /
        ((1 + monthly_rate) ^ duration_months.toNat - 1)
    let monthly_payment_with_insurance := monthly_payment_without_insurance + insurance_amount
    let total_paid := monthly_payment_with_insurance * (duration_months : ℚ)
    let total_cost := total_paid - principal
    let cost_percentage := (total_cost / principal) * 100
    let insurance_total_cost := insurance_amount * (duration_months : ℚ)
    Except.ok
      { monthly_payment := monthly_payment_with_insurance,
        total_cost := total_cost,
        total_paid := total_paid,
        cost_percentage := cost_percentage,
        insurance_total_cost := insurance_total_cost,
        amortization_table := create_amortization_table lang principal monthly_rate
          monthly_payment_without_insurance duration_months insurance_amount }

/-- The language-independent content of a calculate_loan result: every field
except the DataFrame column labels and the error message text. -/
def resultData (e : Except String LoanData) :
    Option (ℚ × ℚ × ℚ × ℚ × ℚ × List (List Cell)) :=
  match e with
  | Except.error _ => none
  | Except.ok r =>
      some (r.monthly_payment, r.total_cost, r.total_paid, r.cost_percentage,
        r.insurance_total_cost, r.amortization_table.rows)

/-- A cell that holds a string produced by the "{:,.2f}" format. -/
def isFormattedCell (c : Cell) : Prop := ∃ q : ℚ, c = Cell.str (formatCommas2 q)

/-- The fixed-rate annuity payment of line 26 of src/loan_app.py. -/
def annuity (P r : ℚ) (n : ℕ) : ℚ :=
  P * (r * (1 + r) ^ n) / ((1 + r) ^ n - 1)

/-- The closed-form running balance of the unclamped amortization recurrence
after k months: principal compounded k months minus the future value of the
k payments made. -/
def idealBal (P p r : ℚ) (k : ℕ) : ℚ :=
  P * (1 + r) ^ k - p * ((1 + r) ^ k - 1) / r

/-- The clamp never produces a negative balance. -/
theorem clampNN_nonneg (x : ℚ) : 0 ≤ clampNN x := by
  unfold clampNN
  split
  · exact le_refl 0
  · linarith [not_lt.mp (by assumption : ¬ x < 0)]

/-- The clamp is the identity on non-negative values. -/
theorem clampNN_of_nonneg {x : ℚ} (h : 0 ≤ x) : clampNN x = x := by
  unfold clampNN
  exact if_neg (not_lt.mpr h)

/-- The loop produces exactly as many rows as it is given fuel. -/
theorem buildRows_length (r p ins : ℚ) :
    ∀ (k m : ℕ) (bal : ℚ), (buildRows r p ins m bal k).length = k := by
  intro k
  induction k with
  | zero => intro m bal; rfl
  | succ k ih => intro m bal; simp [buildRows, ih]

/-- One step of the running balance, taken at the end of the iteration. -/
theorem balanceAfter_succ (r p : ℚ) :
    ∀ (k : ℕ) (bal : ℚ),
      balanceAfter r p bal (k + 1) =
        clampNN (balanceAfter r p bal k - (p - balanceAfter r p bal k * r)) := by
  intro k
  induction k with
  | zero => intro bal; rfl
  | succ k ih =>
      intro bal
      rw [show balanceAfter r p bal (k + 1 + 1) =
            balanceAfter r p (clampNN (bal - (p - bal * r))) (k + 1) from rfl,
          ih, show balanceAfter r p bal (k + 1) =
            balanceAfter r p (clampNN (bal - (p - bal * r))) k from rfl]

/-- Row i of the loop output records the running balance after i iterations as
its opening balance, the interest on that balance, the principal portion as
payment minus interest, the constant insurance column, and the constant total
due; its month number counts up from the starting month. -/
theorem buildRows_getElem (r p ins : ℚ) :
    ∀ (k m : ℕ) (bal : ℚ) (i : ℕ), i < k →
      (buildRows r p ins m bal k)[i]? =
        some ⟨m + i, balanceAfter r p bal i,
          p - balanceAfter r p bal i * r, balanceAfter r p bal i * r,
          ins, p + ins⟩ := by
  intro k
  induction k with
  | zero => intro m bal i hi; omega
  | succ k ih =>
      intro m bal i hi
      cases i with
      | zero =>
          rw [show buildRows r p ins m bal (k + 1) =
                ⟨m, bal, p - bal * r, bal * r, ins, p + ins⟩ ::
                  buildRows r p ins (m + 1) (clampNN (bal - (p - bal * r))) k from rfl]
          simp [balanceAfter]
      | succ i =>
          have hi' : i < k := by omega
          rw [show buildRows r p ins m bal (k + 1) =
                ⟨m, bal, p - bal * r, bal * r, ins, p + ins⟩ ::
                  buildRows r p ins (m + 1) (clampNN (bal - (p - bal * r))) k from rfl]
          rw [List.getElem?_cons_succ, ih (m + 1) _ i hi']
          rw [show balanceAfter r p bal (i + 1) =
                balanceAfter r p (clampNN (bal - (p - bal * r))) i from rfl]
          rw [show m + 1 + i = m + (i + 1) by omega]

/-- Every opening balance the loop records is non-negative as soon as the
starting balance is, because the running balance is clamped at zero. -/
theorem buildRows_opening_nonneg (r p ins : ℚ) :
    ∀ (k m : ℕ) (bal : ℚ), 0 ≤ bal →
      ∀ row ∈ buildRows r p ins m bal k, 0 ≤ row.capital_beginning := by
  intro k
  induction k with
  | zero => intro m bal _ row h; simp [buildRows] at h
  | succ k ih =>
      intro m bal hbal row h
      rw [show buildRows r p ins m bal (k + 1) =
            ⟨m, bal, p - bal * r, bal * r, ins, p + ins⟩ ::
              buildRows r p ins (m + 1) (clampNN (bal - (p - bal * r))) k from rfl] at h
      rcases List.mem_cons.mp h with h0 | h1
  
      · rw [h0]; exact hbal
      · exact ih (m + 1) _ (clampNN_nonneg _) row h1

/-- The ideal balance starts at the principal. -/
theorem idealBal_zero (P p r : ℚ) : idealBal P p r 0 = P := by
  simp [idealBal]

/-- One unclamped loop step sends the ideal balance after k months to the
ideal balance after k + 1 months. -/
theorem idealBal_step (P p r : ℚ) (hr : r ≠ 0) (k : ℕ) :
    idealBal P p r k - (p - idealBal P p r k * r) = idealBal P p r (k + 1) := by
  unfold idealBal
  field_simp
  ring

/-- Closed form of the ideal balance under the annuity payment of line 26. -/
theorem idealBal_annuity (P r : ℚ) (n : ℕ) (hr : r ≠ 0)
    (hA : (1 + r) ^ n - 1 ≠ 0) (k : ℕ) :
    idealBal P (annuity P r n) r k =
      P * ((1 + r) ^ n - (1 + r) ^ k) / ((1 + r) ^ n - 1) := by
  unfold idealBal annuity
  field_simp
  ring

/-- With a positive rate and at least one month, compounding exceeds one. -/
theorem one_lt_growth (r : ℚ) (hr : 0 < r) (n : ℕ) (hn : n ≠ 0) :
    1 < (1 + r) ^ n :=
  one_lt_pow₀ (by linarith) hn

/-- Under the annuity payment the ideal balance stays non-negative for the
whole duration of the loan. -/
theorem idealBal_annuity_nonneg (P r : ℚ) (n : ℕ) (hP : 0 < P) (hr : 0 < r)
    (hn : n ≠ 0) (k : ℕ) (hk : k ≤ n) :
    0 ≤ idealBal P (annuity P r n) r k := by
  have h1 : 1 < (1 + r) ^ n := one_lt_growth r hr n hn
  rw [idealBal_annuity P r n (ne_of_gt hr) (by linarith) k]
  have hBA : (1 + r) ^ k ≤ (1 + r) ^ n := pow_le_pow_right₀ (by linarith) hk
  apply div_nonneg
  · exact mul_nonneg (le_of_lt hP) (by linarith)
  · linarith

/-- Under the annuity payment the ideal balance is non-increasing over the
duration of the loan. -/
theorem idealBal_annuity_anti (P r : ℚ) (n : ℕ) (hP : 0 < P) (hr : 0 < r)
    (hn : n ≠ 0) (j k : ℕ) (hjk : j ≤ k) (hk : k ≤ n) :
    idealBal P (annuity P r n) r k ≤ idealBal P (annuity P r n) r j := by
  have h1 : 1 < (1 + r) ^ n := one_lt_growth r hr n hn
  rw [idealBal_annuity P r n (ne_of_gt hr) (by linarith) k,
      idealBal_annuity P r n (ne_of_gt hr) (by linarith) j]
  have hBB : (1 + r) ^ j ≤ (1 + r) ^ k := pow_le_pow_right₀ (by linarith) hjk
  have hnum : P * ((1 + r) ^ n - (1 + r) ^ k) ≤ P * ((1 + r) ^ n - (1 + r) ^ j) :=
    mul_le_mul_of_nonneg_left (by linarith) (le_of_lt hP)
  exact (div_le_div_iff_of_pos_right (by linarith)).mpr hnum

/-- Under the annuity payment the ideal balance is exactly zero after the
last month: the payment fully amortizes the principal. -/
theorem idealBal_annuity_terminal (P r : ℚ) (n : ℕ) (hr : r ≠ 0)
    (hA : (1 + r) ^ n - 1 ≠ 0) :
    idealBal P (annuity P r n) r n = 0 := by
  rw [idealBal_annuity P r n hr hA n]
  simp

/-- Under valid inputs the clamped running balance of the loop coincides with
the ideal balance: the clamp never fires. -/
theorem balanceAfter_annuity (P r : ℚ) (n : ℕ) (hP : 0 < P) (hr : 0 < r)
    (hn : n ≠ 0) :
    ∀ (k j : ℕ), j + k ≤ n →
      balanceAfter r (annuity P r n) (idealBal P (annuity P r n) r j) k =
        idealBal P (annuity P r n) r (j + k) := by
  intro k
  induction k with
  | zero => intro j h; rfl
  | succ k ih =>
      intro j h
      rw [show balanceAfter r (annuity P r n) (idealBal P (annuity P r n) r j) (k + 1) =
            balanceAfter r (annuity P r n)
              (clampNN (idealBal P (annuity P r n) r j -
                (annuity P r n - idealBal P (annuity P r n) r j * r))) k from rfl]
      rw [idealBal_step P (annuity P r n) r (ne_of_gt hr) j,
          clampNN_of_nonneg (idealBal_annuity_nonneg P r n hP hr hn (j + 1) (by omega)),
          ih (j + 1) (by omega)]
      congr 1
      omega

/-- Under valid inputs the principal portions of the loop rows telescope: the
segment of k rows starting at ideal balance j amortizes exactly the balance
drop over those k months. -/
theorem buildRows_sum_principal (P r ins : ℚ) (n : ℕ) (hP : 0 < P) (hr : 0 < r)
    (hn : n ≠ 0) :
    ∀ (k j m : ℕ), j + k ≤ n →
      ((buildRows r (annuity P r n) ins m (idealBal P (annuity P r n) r j) k).map
          AmortRow.principal_payment).sum =
        idealBal P (annuity P r n) r j - idealBal P (annuity P r n) r (j + k) := by
  intro k
  induction k with
  | zero => intro j m h; simp [buildRows]
  | succ k ih =>
      intro j m h
      rw [show buildRows r (annuity P r n) ins m (idealBal P (annuity P r n) r j) (k + 1) =
            ⟨m, idealBal P (annuity P r n) r j,
              annuity P r n - idealBal P (annuity P r n) r j * r,
              idealBal P (annuity P r n) r j * r, ins, annuity P r n + ins⟩ ::
              buildRows r (annuity P r n) ins (m + 1)
                (clampNN (idealBal P (annuity P r n) r j -
                  (annuity P r n - idealBal P (annuity P r n) r j * r))) k from rfl]
      rw [idealBal_step P (annuity P r n) r (ne_of_gt hr) j,
          clampNN_of_nonneg (idealBal_annuity_nonneg P r n hP hr hn (j + 1) (by omega))]
      simp only [List.map_cons, List.sum_cons]
      rw [ih (j + 1) (m + 1) (by omega)]
      have hstep := idealBal_step P (annuity P r n) r (ne_of_gt hr) j
      have hidx : j + 1 + k = j + (k + 1) := by omega
      rw [hidx] at *
      linarith

/-- The first row the loop emits opens at the starting balance. -/
theorem buildRows_head (r p ins : ℚ) (m : ℕ) (bal : ℚ) (k : ℕ) (hk : k ≠ 0) :
    (buildRows r p ins m bal k).head? =
      some ⟨m, bal, p - bal * r, bal * r, ins, p + ins⟩ := by
  cases k with
  | zero => exact absurd rfl hk
  | succ k => rfl

/-- Under valid inputs the opening balances of consecutive loop rows are
non-increasing. -/
theorem buildRows_chain (P r ins : ℚ) (n : ℕ) (hP : 0 < P) (hr : 0 < r)
    (hn : n ≠ 0) :
    ∀ (k j m : ℕ), j + k ≤ n →
      List.Chain' (fun a b => b.capital_beginning ≤ a.capital_beginning)
        (buildRows r (annuity P r n) ins m (idealBal P (annuity P r n) r j) k) := by
  intro k
  induction k with
  | zero => intro j m h; simp [buildRows]
  | succ k ih =>
      intro j m h
      rw [show buildRows r (annuity P r n) ins m (idealBal P (annuity P r n) r j) (k + 1) =
            ⟨m, idealBal P (annuity P r n) r j,
              annuity P r n - idealBal P (annuity P r n) r j * r,
              idealBal P (annuity P r n) r j * r, ins, annuity P r n + ins⟩ ::
              buildRows r (annuity P r n) ins (m + 1)
                (clampNN (idealBal P (annuity P r n) r j -
                  (annuity P r n - idealBal P (annuity P r n) r j * r))) k from rfl]
      rw [idealBal_step P (annuity P r n) r (ne_of_gt hr) j,
          clampNN_of_nonneg (idealBal_annuity_nonneg P r n hP hr hn (j + 1) (by omega))]
      apply List.chain'_cons'.mpr
      refine ⟨?_, ih (j + 1) (m + 1) (by omega)⟩
      intro y hy
      cases k with
      | zero => simp [buildRows] at hy
      | succ k' =>
          rw [buildRows_head r (annuity P r n) ins (m + 1)
                (idealBal P (annuity P r n) r (j + 1)) (k' + 1) (by omega)] at hy
          have hy' : (⟨m + 1, idealBal P (annuity P r n) r (j + 1),
              annuity P r n - idealBal P (annuity P r n) r (j + 1) * r,
              idealBal P (annuity P r n) r (j + 1) * r, ins,
              annuity P r n + ins⟩ : AmortRow) = y := by
            simpa using hy
          rw [← hy']
          exact idealBal_annuity_anti P r n hP hr hn j (j + 1) (by omega) (by omega)

/-- The rows of the returned DataFrame are the formatted data rows followed by
the single totals row, whose four payment entries are the formatted sums of
the numeric columns and whose opening-balance cell is the empty string. -/
theorem create_table_rows (lang : Lang) (p r pay : ℚ) (d : ℤ) (ins : ℚ) :
    (create_amortization_table lang p r pay d ins).rows =
      (amortData p r pay d ins).map (fun row =>
        [Cell.nat row.month, Cell.str (formatCommas2 row.capital_beginning),
         Cell.str (formatCommas2 row.principal_payment),
         Cell.str (formatCommas2 row.interest_payment),
         Cell.str (formatCommas2 row.insurance_amount),
         Cell.str (formatCommas2 row.total_payment)]) ++
      [[Cell.str (get_translation lang "Total"), Cell.str "",
        Cell.str (formatCommas2 (((amortData p r pay d ins).map
          AmortRow.principal_payment).sum)),
        Cell.str (formatCommas2 (((amortData p r pay d ins).map
          AmortRow.interest_payment).sum)),
        Cell.str (formatCommas2 (((amortData p r pay d ins).map
          AmortRow.insurance_amount).sum)),
        Cell.str (formatCommas2 (((amortData p r pay d ins).map
          AmortRow.total_payment).sum))]] := rfl

/-- The numeric table has one row per month of the duration. -/
theorem amortData_length (p r pay : ℚ) (d : ℤ) (ins : ℚ) :
    (amortData p r pay d ins).length = d.toNat :=
  buildRows_length r pay ins d.toNat 1 p

/-- The totals-row month label is the same string in both languages. -/
theorem total_label (lang : Lang) : get_translation lang "Total" = "Total" := by
  cases lang <;> rfl

/-- The cents part of the format always has exactly two characters. -/
theorem twoDigits_length (m : ℕ) : (twoDigits m).length = 2 := rfl

/-- The "{:,.2f}" format never produces the empty string: its output always
ends in a dot followed by two digits. -/
theorem formatCommas2_ne_empty (x : ℚ) : formatCommas2 x ≠ "" := by
  intro h
  have h2 := congrArg String.length h
  unfold formatCommas2 at h2
  simp only [String.length_append, twoDigits_length] at h2
  rw [show String.length "" = 0 from rfl] at h2
  omega

/-- The DataFrame column labels of a calculate_loan result ([] on error). -/
def colsOf (e : Except String LoanData) : List String :=
  match e with
  | Except.error _ => []
  | Except.ok r => r.amortization_table.columns

/-- On valid inputs calculate_loan returns the record computed by lines 25-44:
the annuity payment plus insurance, the totals derived from it, and the
amortization table built from the base payment. -/
theorem calculate_loan_eq_ok (lang : Lang) (principal taeg : ℚ) (duration_months : ℤ)
    (insurance_amount : ℚ)
    (h : ¬ (principal ≤ 0 ∨ taeg ≤ 0 ∨ duration_months ≤ 0)) :
    calculate_loan lang principal taeg duration_months insurance_amount =
      Except.ok
        { monthly_payment :=
            annuity principal (taeg / 100 / 12) duration_months.toNat + insurance_amount,
          total_cost :=
            (annuity principal (taeg / 100 / 12) duration_months.toNat + insurance_amount) *
              (duration_months : ℚ) - principal,
          total_paid :=
            (annuity principal (taeg / 100 / 12) duration_months.toNat + insurance_amount) *
              (duration_months : ℚ),
          cost_percentage :=
            (((annuity principal (taeg / 100 / 12) duration_months.toNat + insurance_amount) *
              (duration_months : ℚ) - principal) / principal) * 100,
          insurance_total_cost := insurance_amount * (duration_months : ℚ),
          amortization_table :=
            create_amortization_table lang principal (taeg / 100 / 12)
              (annuity principal (taeg / 100 / 12) duration_months.toNat)
              duration_months insurance_amount } := by
  unfold calculate_loan
  rw [if_neg h]
  rfl

/-- C1: for every input with principal > 0, annualRate > 0 and
durationMonths > 0, calculate_loan succeeds and its monthly_payment equals
the base payment principal * (monthlyRate * (1 + monthlyRate) ^ durationMonths)
/ ((1 + monthlyRate) ^ durationMonths - 1) with monthlyRate = annualRate /
100 / 12, plus the monthly insurance. -/
theorem C1_monthly_payment (lang : Lang) (principal taeg : ℚ) (duration_months : ℤ)
    (insurance_amount : ℚ) (hp : 0 < principal) (ht : 0 < taeg)
    (hd : 0 < duration_months) :
    ∃ res : LoanData,
      calculate_loan lang principal taeg duration_months insurance_amount =
        Except.ok res ∧
      res.monthly_payment =
        principal * ((taeg / 100 / 12) * (1 + taeg / 100 / 12) ^ duration_months.toNat) /
          ((1 + taeg / 100 / 12) ^ duration_months.toNat - 1) + insurance_amount := by
  have h : ¬ (principal ≤ 0 ∨ taeg ≤ 0 ∨ duration_months ≤ 0) := by
    push_neg
    exact ⟨hp, ht, hd⟩
  exact ⟨_, calculate_loan_eq_ok lang principal taeg duration_months insurance_amount h, rfl⟩

/-- C1 witness at a concrete valid input. -/
theorem C1_witness :
    ∃ res : LoanData,
      calculate_loan Lang.francais 1000 12 1 5 = Except.ok res ∧
      res.monthly_payment =
        1000 * ((12 / 100 / 12) * (1 + 12 / 100 / 12) ^ (1 : ℤ).toNat) /
          ((1 + 12 / 100 / 12) ^ (1 : ℤ).toNat - 1) + 5 :=
  C1_monthly_payment Lang.francais 1000 12 1 5 (by decide) (by decide) (by decide)

/-- C6: for every valid input the summary satisfies totalPaid =
monthlyPayment times durationMonths, totalCost = totalPaid minus principal,
costPercentage = totalCost / principal times 100 and insuranceTotalCost =
monthlyInsurance times durationMonths. -/
theorem C6_summary (lang : Lang) (principal taeg : ℚ) (duration_months : ℤ)
    (insurance_amount : ℚ) (hp : 0 < principal) (ht : 0 < taeg)
    (hd : 0 < duration_months) :
    ∃ res : LoanData,
      calculate_loan lang principal taeg duration_months insurance_amount =
        Except.ok res ∧
      res.total_paid = res.monthly_payment * (duration_months : ℚ) ∧
      res.total_cost = res.total_paid - principal ∧
      res.cost_percentage = res.total_cost / principal * 100 ∧
      res.insurance_total_cost = insurance_amount * (duration_months : ℚ) := by
  have h : ¬ (principal ≤ 0 ∨ taeg ≤ 0 ∨ duration_months ≤ 0) := by
    push_neg
    exact ⟨hp, ht, hd⟩
  exact ⟨_, calculate_loan_eq_ok lang principal taeg duration_months insurance_amount h,
    rfl, rfl, rfl, rfl⟩

/-- C6 witness at a concrete valid input. -/
theorem C6_witness :
    ∃ res : LoanData,
      calculate_loan Lang.francais 1000 12 1 5 = Except.ok res ∧
      res.total_paid = res.monthly_payment * ((1 : ℤ) : ℚ) ∧
      res.total_cost = res.total_paid - 1000 ∧
      res.cost_percentage = res.total_cost / 1000 * 100 ∧
      res.insurance_total_cost = 5 * ((1 : ℤ) : ℚ) :=
  C6_summary Lang.francais 1000 12 1 5 (by decide) (by decide) (by decide)

/-- C3: calculate_loan fails, with the translated human-readable (non-empty)
message of line 23, exactly when principal, annualRate or durationMonths is
not strictly positive; monthlyInsurance is never validated, so any insurance
value (negative included) succeeds when the other three inputs are
positive. -/
theorem C3_validation (lang : Lang) (principal taeg : ℚ) (duration_months : ℤ)
    (insurance_amount : ℚ) :
    ((0 < principal ∧ 0 < taeg ∧ 0 < duration_months) →
      ∃ res : LoanData,
        calculate_loan lang principal taeg duration_months insurance_amount =
          Except.ok res) ∧
    (¬ (0 < principal ∧ 0 < taeg ∧ 0 < duration_months) →
      calculate_loan lang principal taeg duration_months insurance_amount =
        Except.error (get_translation lang "Les valeurs doivent être positives.") ∧
      get_translation lang "Les valeurs doivent être positives." ≠ "") := by
  constructor
  · intro hpos
    have h : ¬ (principal ≤ 0 ∨ taeg ≤ 0 ∨ duration_months ≤ 0) := by
      push_neg
      exact hpos
    exact ⟨_, calculate_loan_eq_ok lang principal taeg duration_months insurance_amount h⟩
  · intro hneg
    have h : principal ≤ 0 ∨ taeg ≤ 0 ∨ duration_months ≤ 0 := by
      by_contra hc
      push_neg at hc
      exact hneg hc
    constructor
    · unfold calculate_loan
      rw [if_pos h]
    · cases lang <;> decide

/-- C3 witness: a negative insurance with positive other inputs succeeds, and
a zero principal fails with the message of line 23. -/
theorem C3_witness :
    (∃ res : LoanData,
      calculate_loan Lang.francais 1000 12 12 (-5) = Except.ok res) ∧
    calculate_loan Lang.francais 0 12 12 0 =
      Except.error "Les valeurs doivent être positives." :=
  ⟨(C3_validation Lang.francais 1000 12 12 (-5)).1 ⟨by decide, by decide, by decide⟩,
   ((C3_validation Lang.francais 0 12 12 0).2 (by decide)).1⟩

/-- C2: for every valid input the principal portions of the data rows of the
amortization table sum to the principal.  In this exact-arithmetic model of
the floating-point code the identity is exact, hence well within the stated
1e-6 relative tolerance, and the final clamp never fires. -/
theorem C2_principal_sum (principal taeg : ℚ) (duration_months : ℤ)
    (insurance_amount : ℚ) (hp : 0 < principal) (ht : 0 < taeg)
    (hd : 0 < duration_months) :
    ((amortData principal (taeg / 100 / 12)
        (annuity principal (taeg / 100 / 12) duration_months.toNat)
        duration_months insurance_amount).map AmortRow.principal_payment).sum =
      principal := by
  have hr : 0 < taeg / 100 / 12 := by positivity
  have hn : duration_months.toNat ≠ 0 := by omega
  have hA : (1 + taeg / 100 / 12) ^ duration_months.toNat - 1 ≠ 0 :=
    sub_ne_zero.mpr (ne_of_gt (one_lt_growth _ hr _ hn))
  have hsum := buildRows_sum_principal principal (taeg / 100 / 12) insurance_amount
    duration_months.toNat hp hr hn duration_months.toNat 0 1 (by omega)
  rw [idealBal_zero, Nat.zero_add,
      idealBal_annuity_terminal principal (taeg / 100 / 12) duration_months.toNat
        (ne_of_gt hr) hA] at hsum
  unfold amortData
  simpa using hsum

/-- C2 witness at a concrete valid input. -/
theorem C2_witness :
    ((amortData 1000 (12 / 100 / 12) (annuity 1000 (12 / 100 / 12) (1 : ℤ).toNat)
        1 0).map AmortRow.principal_payment).sum = 1000 :=
  C2_principal_sum 1000 12 1 0 (by decide) (by decide) (by decide)

/-- C4: row i of the amortization data (month i + 1) opens at the running
balance after i clamped iterations starting from the principal, charges
interest equal to that opening balance times the monthly rate, amortizes the
base payment minus that interest, and carries the constant insurance and
constant total due; the running balance starts at the principal and each step
subtracts the principal portion and clamps at zero. -/
theorem C4_row_recurrence (principal monthly_rate monthly_payment : ℚ)
    (duration_months : ℤ) (insurance_amount : ℚ) (i : ℕ)
    (hi : i < duration_months.toNat) :
    (amortData principal monthly_rate monthly_payment duration_months
        insurance_amount)[i]? =
      some ⟨i + 1, balanceAfter monthly_rate monthly_payment principal i,
        monthly_payment - balanceAfter monthly_rate monthly_payment principal i * monthly_rate,
        balanceAfter monthly_rate monthly_payment principal i * monthly_rate,
        insurance_amount, monthly_payment + insurance_amount⟩ ∧
    balanceAfter monthly_rate monthly_payment principal 0 = principal ∧
    (∀ k : ℕ, balanceAfter monthly_rate monthly_payment principal (k + 1) =
      clampNN (balanceAfter monthly_rate monthly_payment principal k -
        (monthly_payment -
          balanceAfter monthly_rate monthly_payment principal k * monthly_rate))) := by
  refine ⟨?_, rfl, fun k => balanceAfter_succ monthly_rate monthly_payment k principal⟩
  unfold amortData
  have h := buildRows_getElem monthly_rate monthly_payment insurance_amount
    duration_months.toNat 1 principal i hi
  rw [Nat.add_comm 1 i] at h
  exact h

/-- C4 witness at a concrete input, first row. -/
theorem C4_witness :
    (amortData 1000 (1 / 100) 1010 1 0)[0]? =
      some ⟨0 + 1, balanceAfter (1 / 100) 1010 1000 0,
        1010 - balanceAfter (1 / 100) 1010 1000 0 * (1 / 100),
        balanceAfter (1 / 100) 1010 1000 0 * (1 / 100), 0, 1010 + 0⟩ ∧
    balanceAfter (1 / 100) 1010 1000 0 = 1000 ∧
    (∀ k : ℕ, balanceAfter (1 / 100) 1010 1000 (k + 1) =
      clampNN (balanceAfter (1 / 100) 1010 1000 k -
        (1010 - balanceAfter (1 / 100) 1010 1000 k * (1 / 100)))) :=
  C4_row_recurrence 1000 (1 / 100) 1010 1 0 0 (by decide)

/-- C7: for every valid input the opening balances of consecutive data rows
are non-increasing, and the running balance left after the final month is
exactly zero in this exact-arithmetic model. -/
theorem C7_monotone_terminal (principal taeg : ℚ) (duration_months : ℤ)
    (insurance_amount : ℚ) (hp : 0 < principal) (ht : 0 < taeg)
    (hd : 0 < duration_months) :
    List.Chain' (fun a b => b.capital_beginning ≤ a.capital_beginning)
      (amortData principal (taeg / 100 / 12)
        (annuity principal (taeg / 100 / 12) duration_months.toNat)
        duration_months insurance_amount) ∧
    balanceAfter (taeg / 100 / 12)
      (annuity principal (taeg / 100 / 12) duration_months.toNat) principal
      duration_months.toNat = 0 := by
  have hr : 0 < taeg / 100 / 12 := by positivity
  have hn : duration_months.toNat ≠ 0 := by omega
  have hA : (1 + taeg / 100 / 12) ^ duration_months.toNat - 1 ≠ 0 :=
    sub_ne_zero.mpr (ne_of_gt (one_lt_growth _ hr _ hn))
  constructor
  · have h := buildRows_chain principal (taeg / 100 / 12) insurance_amount
      duration_months.toNat hp hr hn duration_months.toNat 0 1 (by omega)
    rw [idealBal_zero] at h
    unfold amortData
    exact h
  · have h := balanceAfter_annuity principal (taeg / 100 / 12) duration_months.toNat
      hp hr hn duration_months.toNat 0 (by omega)
    rw [idealBal_zero, Nat.zero_add] at h
    rw [h]
    exact idealBal_annuity_terminal principal (taeg / 100 / 12) duration_months.toNat
      (ne_of_gt hr) hA

/-- C7 witness at a concrete valid input. -/
theorem C7_witness :
    List.Chain' (fun a b => b.capital_beginning ≤ a.capital_beginning)
      (amortData 1000 (12 / 100 / 12) (annuity 1000 (12 / 100 / 12) (1 : ℤ).toNat)
        1 0) ∧
    balanceAfter (12 / 100 / 12) (annuity 1000 (12 / 100 / 12) (1 : ℤ).toNat)
      1000 (1 : ℤ).toNat = 0 :=
  C7_monotone_terminal 1000 12 1 0 (by decide) (by decide) (by decide)

/-- C10: for every input with positive principal, every data row of the
amortization table opens at a non-negative balance, and the first row opens
exactly at the principal. -/
theorem C10_opening_nonneg (principal monthly_rate monthly_payment : ℚ)
    (duration_months : ℤ) (insurance_amount : ℚ) (hp : 0 < principal) :
    (∀ row ∈ amortData principal monthly_rate monthly_payment duration_months
        insurance_amount, 0 ≤ row.capital_beginning) ∧
    (0 < duration_months →
      ∃ row, (amortData principal monthly_rate monthly_payment duration_months
          insurance_amount)[0]? = some row ∧ row.capital_beginning = principal) := by
  constructor
  · intro row hrow
    exact buildRows_opening_nonneg monthly_rate monthly_payment insurance_amount
      duration_months.toNat 1 principal (le_of_lt hp) row hrow
  · intro hd
    unfold amortData
    exact ⟨_, buildRows_getElem monthly_rate monthly_payment insurance_amount
      duration_months.toNat 1 principal 0 (by omega), rfl⟩

/-- C10 witness at a concrete input. -/
theorem C10_witness :
    (∀ row ∈ amortData 1000 (1 / 100) 1010 1 0, 0 ≤ row.capital_beginning) ∧
    (0 < (1 : ℤ) →
      ∃ row, (amortData 1000 (1 / 100) 1010 1 0)[0]? = some row ∧
        row.capital_beginning = 1000) :=
  C10_opening_nonneg 1000 (1 / 100) 1010 1 0 (by decide)

/-- The element at the length of the prefix of an appended singleton is that
singleton element. -/
theorem append_singleton_getElem (L : List (List Cell)) (tot : List Cell) (n : ℕ)
    (h : L.length = n) : (L ++ [tot])[n]? = some tot := by
  subst h
  exact List.getElem?_concat_length ..

/-- Data row j of the returned DataFrame, fully formatted. -/
theorem table_data_row (lang : Lang) (p r pay : ℚ) (d : ℤ) (ins : ℚ) (j : ℕ)
    (hj : j < d.toNat) :
    (create_amortization_table lang p r pay d ins).rows[j]? =
      some [Cell.nat (j + 1),
        Cell.str (formatCommas2 (balanceAfter r pay p j)),
        Cell.str (formatCommas2 (pay - balanceAfter r pay p j * r)),
        Cell.str (formatCommas2 (balanceAfter r pay p j * r)),
        Cell.str (formatCommas2 ins),
        Cell.str (formatCommas2 (pay + ins))] := by
  rw [create_table_rows]
  rw [List.getElem?_append_left (by simpa [amortData_length] using hj)]
  rw [List.getElem?_map]
  have h := buildRows_getElem r pay ins d.toNat 1 p j hj
  rw [Nat.add_comm 1 j] at h
  unfold amortData
  rw [h]
  rfl

/-- The totals row of the returned DataFrame sits right after the data rows. -/
theorem table_totals_row (lang : Lang) (p r pay : ℚ) (d : ℤ) (ins : ℚ) :
    (create_amortization_table lang p r pay d ins).rows[d.toNat]? =
      some [Cell.str (get_translation lang "Total"), Cell.str "",
        Cell.str (formatCommas2 (((amortData p r pay d ins).map
          AmortRow.principal_payment).sum)),
        Cell.str (formatCommas2 (((amortData p r pay d ins).map
          AmortRow.interest_payment).sum)),
        Cell.str (formatCommas2 (((amortData p r pay d ins).map
          AmortRow.insurance_amount).sum)),
        Cell.str (formatCommas2 (((amortData p r pay d ins).map
          AmortRow.total_payment).sum))] := by
  rw [create_table_rows]
  exact append_singleton_getElem _ _ _ (by simp [amortData_length])

/-- C5: for every valid input the returned table holds exactly durationMonths
data rows, whose month cells count 1, 2, ... durationMonths in order,
followed by exactly one totals row whose payment entries are the sums of the
corresponding numeric columns over all data rows and whose opening-balance
field is blank. -/
theorem C5_table_shape (lang : Lang) (principal taeg : ℚ) (duration_months : ℤ)
    (insurance_amount : ℚ) (hp : 0 < principal) (ht : 0 < taeg)
    (hd : 0 < duration_months) :
    (create_amortization_table lang principal (taeg / 100 / 12)
        (annuity principal (taeg / 100 / 12) duration_months.toNat)
        duration_months insurance_amount).rows.length = duration_months.toNat + 1 ∧
    (∀ j, j < duration_months.toNat → ∃ cells,
      (create_amortization_table lang principal (taeg / 100 / 12)
          (annuity principal (taeg / 100 / 12) duration_months.toNat)
          duration_months insurance_amount).rows[j]? = some cells ∧
      cells[0]? = some (Cell.nat (j + 1))) ∧
    (create_amortization_table lang principal (taeg / 100 / 12)
        (annuity principal (taeg / 100 / 12) duration_months.toNat)
        duration_months insurance_amount).rows[duration_months.toNat]? =
      some [Cell.str (get_translation lang "Total"), Cell.str "",
        Cell.str (formatCommas2 (((amortData principal (taeg / 100 / 12)
          (annuity principal (taeg / 100 / 12) duration_months.toNat)
          duration_months insurance_amount).map AmortRow.principal_payment).sum)),
        Cell.str (formatCommas2 (((amortData principal (taeg / 100 / 12)
          (annuity principal (taeg / 100 / 12) duration_months.toNat)
          duration_months insurance_amount).map AmortRow.interest_payment).sum)),
        Cell.str (formatCommas2 (((amortData principal (taeg / 100 / 12)
          (annuity principal (taeg / 100 / 12) duration_months.toNat)
          duration_months insurance_amount).map AmortRow.insurance_amount).sum)),
        Cell.str (formatCommas2 (((amortData principal (taeg / 100 / 12)
          (annuity principal (taeg / 100 / 12) duration_months.toNat)
          duration_months insurance_amount).map AmortRow.total_payment).sum))] := by
  refine ⟨?_, ?_, table_totals_row ..⟩
  · rw [create_table_rows]
    simp [amortData_length]
  · intro j hj
    exact ⟨_, table_data_row lang principal (taeg / 100 / 12)
      (annuity principal (taeg / 100 / 12) duration_months.toNat)
      duration_months insurance_amount j hj, rfl⟩

/-- C5 witness at a concrete valid input. -/
theorem C5_witness :
    (create_amortization_table Lang.francais 1000 (12 / 100 / 12)
        (annuity 1000 (12 / 100 / 12) (1 : ℤ).toNat) 1 0).rows.length =
      (1 : ℤ).toNat + 1 ∧
    (∀ j, j < (1 : ℤ).toNat → ∃ cells,
      (create_amortization_table Lang.francais 1000 (12 / 100 / 12)
          (annuity 1000 (12 / 100 / 12) (1 : ℤ).toNat) 1 0).rows[j]? = some cells ∧
      cells[0]? = some (Cell.nat (j + 1))) ∧
    (create_amortization_table Lang.francais 1000 (12 / 100 / 12)
        (annuity 1000 (12 / 100 / 12) (1 : ℤ).toNat) 1 0).rows[(1 : ℤ).toNat]? =
      some [Cell.str (get_translation Lang.francais "Total"), Cell.str "",
        Cell.str (formatCommas2 (((amortData 1000 (12 / 100 / 12)
          (annuity 1000 (12 / 100 / 12) (1 : ℤ).toNat) 1 0).map
            AmortRow.principal_payment).sum)),
        Cell.str (formatCommas2 (((amortData 1000 (12 / 100 / 12)
          (annuity 1000 (12 / 100 / 12) (1 : ℤ).toNat) 1 0).map
            AmortRow.interest_payment).sum)),
        Cell.str (formatCommas2 (((amortData 1000 (12 / 100 / 12)
          (annuity 1000 (12 / 100 / 12) (1 : ℤ).toNat) 1 0).map
            AmortRow.insurance_amount).sum)),
        Cell.str (formatCommas2 (((amortData 1000 (12 / 100 / 12)
          (annuity 1000 (12 / 100 / 12) (1 : ℤ).toNat) 1 0).map
            AmortRow.total_payment).sum))] :=
  C5_table_shape Lang.francais 1000 12 1 0 (by decide) (by decide) (by decide)

/-- C9 (amended): in the returned DataFrame every cell of the opening
balance, principal, interest, insurance and total-due columns is a string
produced by the "{:,.2f}" format from the corresponding numeric value —
except the totals-row opening-balance cell, which is the empty string rather
than a formatted number — while the month column holds a raw integer in data
rows. -/
theorem C9_cells_formatted (lang : Lang) (principal monthly_rate monthly_payment : ℚ)
    (duration_months : ℤ) (insurance_amount : ℚ) :
    (∀ j, j < duration_months.toNat → ∃ row : AmortRow,
      (amortData principal monthly_rate monthly_payment duration_months
          insurance_amount)[j]? = some row ∧
      (create_amortization_table lang principal monthly_rate monthly_payment
          duration_months insurance_amount).rows[j]? =
        some [Cell.nat row.month,
          Cell.str (formatCommas2 row.capital_beginning),
          Cell.str (formatCommas2 row.principal_payment),
          Cell.str (formatCommas2 row.interest_payment),
          Cell.str (formatCommas2 row.insurance_amount),
          Cell.str (formatCommas2 row.total_payment)]) ∧
    (create_amortization_table lang principal monthly_rate monthly_payment
        duration_months insurance_amount).rows[duration_months.toNat]? =
      some [Cell.str (get_translation lang "Total"), Cell.str "",
        Cell.str (formatCommas2 (((amortData principal monthly_rate monthly_payment
          duration_months insurance_amount).map AmortRow.principal_payment).sum)),
        Cell.str (formatCommas2 (((amortData principal monthly_rate monthly_payment
          duration_months insurance_amount).map AmortRow.interest_payment).sum)),
        Cell.str (formatCommas2 (((amortData principal monthly_rate monthly_payment
          duration_months insurance_amount).map AmortRow.insurance_amount).sum)),
        Cell.str (formatCommas2 (((amortData principal monthly_rate monthly_payment
          duration_months insurance_amount).map AmortRow.total_payment).sum))] := by
  refine ⟨?_, table_totals_row ..⟩
  intro j hj
  have hdata := buildRows_getElem monthly_rate monthly_payment insurance_amount
    duration_months.toNat 1 principal j hj
  rw [Nat.add_comm 1 j] at hdata
  refine ⟨⟨j + 1, balanceAfter monthly_rate monthly_payment principal j,
      monthly_payment - balanceAfter monthly_rate monthly_payment principal j * monthly_rate,
      balanceAfter monthly_rate monthly_payment principal j * monthly_rate,
      insurance_amount, monthly_payment + insurance_amount⟩, ?_, ?_⟩
  · unfold amortData
    exact hdata
  · rw [table_data_row lang principal monthly_rate monthly_payment duration_months
      insurance_amount j hj]

/-- C9 witness at a concrete input. -/
theorem C9_witness :
    (∀ j, j < (1 : ℤ).toNat → ∃ row : AmortRow,
      (amortData 1000 (1 / 100) 1010 1 0)[j]? = some row ∧
      (create_amortization_table Lang.francais 1000 (1 / 100) 1010 1 0).rows[j]? =
        some [Cell.nat row.month,
          Cell.str (formatCommas2 row.capital_beginning),
          Cell.str (formatCommas2 row.principal_payment),
          Cell.str (formatCommas2 row.interest_payment),
          Cell.str (formatCommas2 row.insurance_amount),
          Cell.str (formatCommas2 row.total_payment)]) ∧
    (create_amortization_table Lang.francais 1000 (1 / 100) 1010 1 0).rows[(1 : ℤ).toNat]? =
      some [Cell.str (get_translation Lang.francais "Total"), Cell.str "",
        Cell.str (formatCommas2 (((amortData 1000 (1 / 100) 1010 1 0).map
          AmortRow.principal_payment).sum)),
        Cell.str (formatCommas2 (((amortData 1000 (1 / 100) 1010 1 0).map
          AmortRow.interest_payment).sum)),
        Cell.str (formatCommas2 (((amortData 1000 (1 / 100) 1010 1 0).map
          AmortRow.insurance_amount).sum)),
        Cell.str (formatCommas2 (((amortData 1000 (1 / 100) 1010 1 0).map
          AmortRow.total_payment).sum))] :=
  C9_cells_formatted Lang.francais 1000 (1 / 100) 1010 1 0

/-- C9 counterexample: at a concrete input the totals row of the returned
table carries the empty string in its opening-balance cell, and the empty
string is not a "{:,.2f}"-formatted value, so not every cell of the five
monetary columns (totals row included) is a formatted string. -/
theorem C9_counterexample :
    (∃ cells, (create_amortization_table Lang.francais 1000 (1 / 100) 1010 1 0).rows[1]? =
      some cells ∧ cells[1]? = some (Cell.str "")) ∧
    ¬ isFormattedCell (Cell.str "") := by
  constructor
  · exact ⟨_, table_totals_row Lang.francais 1000 (1 / 100) 1010 1 0, rfl⟩
  · rintro ⟨q, hq⟩
    exact formatCommas2_ne_empty q (Cell.str.inj hq).symm

/-- C8 (amended): the result of calculate_loan is a pure function of its four
numeric arguments and the ambient session language; the language affects only
the DataFrame column labels and the error-message text, so the entire
language-independent content of the result — every summary figure and every
table row — is identical across languages. -/
theorem C8_language_only_labels (lang lang' : Lang) (principal taeg : ℚ)
    (duration_months : ℤ) (insurance_amount : ℚ) :
    resultData (calculate_loan lang principal taeg duration_months insurance_amount) =
      resultData (calculate_loan lang' principal taeg duration_months insurance_amount) := by
  by_cases hc : principal ≤ 0 ∨ taeg ≤ 0 ∨ duration_months ≤ 0
  · simp only [calculate_loan, if_pos hc]
    rfl
  · rw [calculate_loan_eq_ok lang principal taeg duration_months insurance_amount hc,
        calculate_loan_eq_ok lang' principal taeg duration_months insurance_amount hc]
    unfold resultData
    simp only [Option.some.injEq]
    rw [create_table_rows, create_table_rows, total_label, total_label]

/-- C8 counterexample: with identical numeric arguments but a different
ambient language, calculate_loan returns different results (the DataFrame
column labels differ), so the result does not depend on the four numeric
arguments alone. -/
theorem C8_counterexample :
    calculate_loan Lang.francais 1000 12 1 0 ≠ calculate_loan Lang.english 1000 12 1 0 := by
  intro h
  have h2 := congrArg colsOf h
  have h3 : colsOf (calculate_loan Lang.francais 1000 12 1 0) ≠
      colsOf (calculate_loan Lang.english 1000 12 1 0) := by decide
  exact h3 h2
